import Mathlib

/-!
Shallow embedding of the algorithmic core of the StoryStudy repository:
the SM-2-like spaced-repetition scheduler (`spacedRepetition.ts`,
`src/unnamed/part_002`), the goal-progress / recommendation engine
(`src/lib/goalSystem.ts`) and the story-goal integration layer
(`src/lib/storyGoalIntegration.ts`), together with theorems checking the
claims of the specification against these definitions.

JavaScript `number` values are modelled as exact rationals (`ℚ`); `Date`
values are modelled by their millisecond timestamp (`getTime()`), likewise
as rationals.  `Math.round`, `Math.ceil`, `Math.max`, `Math.min` are
modelled exactly (`jsRound`, `jsCeil`, `max`, `min`).
-/

/-- JS `Math.round x` = `⌊x + 1/2⌋` (rounds half-way cases toward +∞). -/
def jsRound (q : ℚ) : ℤ := ⌊q + 1/2⌋

/-- JS `Math.ceil`. -/
def jsCeil (q : ℚ) : ℤ := ⌈q⌉

/-- Milliseconds in a day, `24 * 60 * 60 * 1000`. -/
def msPerDay : ℚ := 24 * 60 * 60 * 1000

/-- `FlashcardData` from `spacedRepetition.ts`.  `created`, `lastReviewed`
and `nextReview` are millisecond timestamps; numeric fields are rationals. -/
structure FlashcardData where
  id : String
  front : String
  back : String
  created : ℚ
  lastReviewed : Option ℚ := none
  nextReview : ℚ
  interval : ℚ
  easeFactor : ℚ
  repetitions : ℚ
  quality : Option ℚ := none
deriving Repr, DecidableEq

/-- `ReviewResult` from `spacedRepetition.ts`. -/
structure ReviewResult where
  quality : ℚ
deriving Repr, DecidableEq

namespace SpacedRepetitionScheduler

/-- `SpacedRepetitionScheduler.MIN_EASE_FACTOR`. -/
def MIN_EASE_FACTOR : ℚ := 1.3

/-- `SpacedRepetitionScheduler.INITIAL_EASE_FACTOR`. -/
def INITIAL_EASE_FACTOR : ℚ := 2.5

/-- `SpacedRepetitionScheduler.INITIAL_INTERVAL`. -/
def INITIAL_INTERVAL : ℚ := 1

/-- `SpacedRepetitionScheduler.reviewCard(card, result)`; `now` is the
current time (`new Date()`), in milliseconds.  Mutable-variable
reassignments of the source are rendered as `let` bindings: `quality` is
the clamped response quality, `easeFactor` the updated and floored ease
factor, and the `repetitions === 1 / === 2` tests of the source, run after
`repetitions += 1`, appear as tests on `card.repetitions + 1`. -/
def reviewCard (card : FlashcardData) (result : ReviewResult) (now : ℚ) :
    FlashcardData :=
  let quality := max 0 (min 5 result.quality)
  let easeFactor := max MIN_EASE_FACTOR
    (card.easeFactor + (0.1 - (5 - quality) * (0.08 + (5 - quality) * 0.02)))
  let repetitions : ℚ := if quality < 3 then 0 else card.repetitions + 1
  let interval : ℚ :=
    if quality < 3 then INITIAL_INTERVAL
    else if card.repetitions + 1 = 1 then 1
    else if card.repetitions + 1 = 2 then 6
    else (jsRound (card.interval * easeFactor) : ℚ)
  let nextReview := now + interval * msPerDay
  { card with
    lastReviewed := some now
    nextReview := nextReview
    interval := interval
    easeFactor := easeFactor
    repetitions := repetitions
    quality := some quality }

end SpacedRepetitionScheduler

/-- C1: `SpacedRepetitionScheduler.reviewCard` implements the SM-2-like
update: with `q` the quality clamped into `[0,5]`, the new ease factor is
`max 1.3 (old + (0.1 - (5-q)*(0.08 + (5-q)*0.02)))`; if `q < 3` then
`repetitions` becomes `0` and `interval` becomes `1`; otherwise
`repetitions` is incremented and `interval` becomes `1` when it reaches
`1`, `6` when it reaches `2`, and `round (old interval * new ease factor)`
otherwise; `nextReview` is the review time plus `interval` days,
`lastReviewed` is the review time and `quality` is `q`. -/
theorem reviewCard_sm2_formula (card : FlashcardData) (result : ReviewResult)
    (now : ℚ) :
    let q := max 0 (min 5 result.quality)
    let ef := max 1.3
      (card.easeFactor + (0.1 - (5 - q) * (0.08 + (5 - q) * 0.02)))
    let r := SpacedRepetitionScheduler.reviewCard card result now
    r.easeFactor = ef
    ∧ (q < 3 → r.repetitions = 0 ∧ r.interval = 1)
    ∧ (¬ q < 3 →
        r.repetitions = card.repetitions + 1
        ∧ (card.repetitions + 1 = 1 → r.interval = 1)
        ∧ (card.repetitions + 1 = 2 → r.interval = 6)
        ∧ (card.repetitions + 1 ≠ 1 → card.repetitions + 1 ≠ 2 →
            r.interval = (jsRound (card.interval * ef) : ℚ)))
    ∧ r.nextReview = now + r.interval * (24 * 60 * 60 * 1000)
    ∧ r.lastReviewed = some now
    ∧ r.quality = some q := by
  simp only [SpacedRepetitionScheduler.reviewCard,
    SpacedRepetitionScheduler.MIN_EASE_FACTOR,
    SpacedRepetitionScheduler.INITIAL_INTERVAL, msPerDay]
  refine ⟨trivial, ?_, ?_, trivial, trivial, trivial⟩
  · intro hq
    rw [if_pos hq, if_pos hq]
    exact ⟨rfl, rfl⟩
  · intro hq
    rw [if_neg hq, if_neg hq]
    refine ⟨rfl, ?_, ?_, ?_⟩
    · intro h1; rw [if_pos h1]
    · intro h2
      have h1 : ¬ card.repetitions + 1 = 1 := by
        intro h; rw [h] at h2; norm_num at h2
      rw [if_neg h1, if_pos h2]
    · intro h1 h2; rw [if_neg h1, if_neg h2]

/-- Witness for C1 at a concrete card and review. -/
theorem reviewCard_sm2_formula_witness :
    let card : FlashcardData :=
      { id := "c", front := "f", back := "b", created := 0,
        nextReview := 86400000, interval := 6, easeFactor := 2.5,
        repetitions := 2 }
    let result : ReviewResult := { quality := 4 }
    let q := max 0 (min 5 result.quality)
    let ef := max 1.3
      (card.easeFactor + (0.1 - (5 - q) * (0.08 + (5 - q) * 0.02)))
    let r := SpacedRepetitionScheduler.reviewCard card result 1000
    r.easeFactor = ef
    ∧ (q < 3 → r.repetitions = 0 ∧ r.interval = 1)
    ∧ (¬ q < 3 →
        r.repetitions = card.repetitions + 1
        ∧ (card.repetitions + 1 = 1 → r.interval = 1)
        ∧ (card.repetitions + 1 = 2 → r.interval = 6)
        ∧ (card.repetitions + 1 ≠ 1 → card.repetitions + 1 ≠ 2 →
            r.interval = (jsRound (card.interval * ef) : ℚ)))
    ∧ r.nextReview = 1000 + r.interval * (24 * 60 * 60 * 1000)
    ∧ r.lastReviewed = some 1000
    ∧ r.quality = some q :=
  reviewCard_sm2_formula
    { id := "c", front := "f", back := "b", created := 0,
      nextReview := 86400000, interval := 6, easeFactor := 2.5,
      repetitions := 2 }
    { quality := 4 } 1000

/-- C3: the ease-factor lower bound `1.3` is preserved by every review:
if the ease factor of a card is at least `1.3`, so is the ease factor of the
card returned by `reviewCard`, for every review quality. -/
theorem reviewCard_easeFactor_lower_bound (card : FlashcardData)
    (result : ReviewResult) (now : ℚ) (_h : 1.3 ≤ card.easeFactor) :
    1.3 ≤ (SpacedRepetitionScheduler.reviewCard card result now).easeFactor := by
  simp only [SpacedRepetitionScheduler.reviewCard,
    SpacedRepetitionScheduler.MIN_EASE_FACTOR]
  exact le_max_left _ _

/-- Witness for C3 at a concrete card and review. -/
theorem reviewCard_easeFactor_lower_bound_witness :
    (1.3 : ℚ) ≤ 2.5 ∧
    1.3 ≤ (SpacedRepetitionScheduler.reviewCard
      { id := "c", front := "f", back := "b", created := 0,
        nextReview := 86400000, interval := 1, easeFactor := 2.5,
        repetitions := 0 } { quality := 0 } 0).easeFactor :=
  ⟨by norm_num,
   reviewCard_easeFactor_lower_bound
    { id := "c", front := "f", back := "b", created := 0,
      nextReview := 86400000, interval := 1, easeFactor := 2.5,
      repetitions := 0 } { quality := 0 } 0 (by norm_num)⟩

/-- The ease factor produced by `reviewCard`, as a function of the raw
review quality (before clamping): `max 1.3 (ef + (0.1 - (5-q)(0.08 + (5-q)*0.02)))`
with `q` the quality clamped into `[0,5]`.  Helper shared by the
ease-factor lemmas. -/
theorem reviewCard_easeFactor_eq (card : FlashcardData) (result : ReviewResult)
    (now : ℚ) :
    (SpacedRepetitionScheduler.reviewCard card result now).easeFactor =
      max 1.3 (card.easeFactor +
        (0.1 - (5 - max 0 (min 5 result.quality)) *
          (0.08 + (5 - max 0 (min 5 result.quality)) * 0.02))) := rfl

/-- C8: for a card with ease factor ≥ 1.3, `reviewCard` leaves the ease
factor unchanged at quality 4, increases it by exactly 0.1 at quality 5,
never increases it at quality ≤ 3, and the resulting ease factor is
monotone non-decreasing in the review quality. -/
theorem reviewCard_easeFactor_monotone (card : FlashcardData) (now : ℚ)
    (h : 1.3 ≤ card.easeFactor) :
    (SpacedRepetitionScheduler.reviewCard card ⟨4⟩ now).easeFactor =
      card.easeFactor
    ∧ (SpacedRepetitionScheduler.reviewCard card ⟨5⟩ now).easeFactor =
      card.easeFactor + 0.1
    ∧ (∀ q : ℚ, q ≤ 3 →
        (SpacedRepetitionScheduler.reviewCard card ⟨q⟩ now).easeFactor ≤
          card.easeFactor)
    ∧ (∀ q₁ q₂ : ℚ, q₁ ≤ q₂ →
        (SpacedRepetitionScheduler.reviewCard card ⟨q₁⟩ now).easeFactor ≤
          (SpacedRepetitionScheduler.reviewCard card ⟨q₂⟩ now).easeFactor) := by
  refine ⟨?_, ?_, ?_, ?_⟩
  · rw [reviewCard_easeFactor_eq]
    have h4 : max (0:ℚ) (min 5 4) = 4 := by norm_num
    rw [h4]
    have hz : (0.1 : ℚ) - (5 - 4) * (0.08 + (5 - 4) * 0.02) = 0 := by norm_num
    rw [hz, add_zero]
    exact max_eq_right h
  · rw [reviewCard_easeFactor_eq]
    have h5 : max (0:ℚ) (min 5 5) = 5 := by norm_num
    rw [h5]
    have hz : (0.1 : ℚ) - (5 - 5) * (0.08 + (5 - 5) * 0.02) = 0.1 := by norm_num
    rw [hz]
    exact max_eq_right (by linarith)
  · intro q hq
    rw [reviewCard_easeFactor_eq]
    set c := max (0:ℚ) (min 5 q) with hc
    have hc0 : 0 ≤ c := le_max_left _ _
    have hc3 : c ≤ 3 := by
      rw [hc]
      exact max_le (by norm_num) (le_trans (min_le_right _ _) hq)
    have hdelta : 0.1 - (5 - c) * (0.08 + (5 - c) * 0.02) ≤ 0 := by nlinarith
    exact max_le h (by linarith)
  · intro q₁ q₂ hq
    rw [reviewCard_easeFactor_eq, reviewCard_easeFactor_eq]
    set c₁ := max (0:ℚ) (min 5 q₁) with hc₁
    set c₂ := max (0:ℚ) (min 5 q₂) with hc₂
    have hcc : c₁ ≤ c₂ := max_le_max le_rfl (min_le_min le_rfl hq)
    have hc₂5 : c₂ ≤ 5 := max_le (by norm_num) (min_le_left _ _)
    have hd : (5 - c₁) * (0.08 + (5 - c₁) * 0.02) ≥
        (5 - c₂) * (0.08 + (5 - c₂) * 0.02) := by nlinarith
    exact max_le_max le_rfl (by linarith)

/-- Witness for C8 at a concrete card. -/
theorem reviewCard_easeFactor_monotone_witness :
    (1.3 : ℚ) ≤ 2 ∧
    ((SpacedRepetitionScheduler.reviewCard
        { id := "c", front := "f", back := "b", created := 0,
          nextReview := 0, interval := 1, easeFactor := 2,
          repetitions := 0 } ⟨4⟩ 0).easeFactor = 2
      ∧ (SpacedRepetitionScheduler.reviewCard
        { id := "c", front := "f", back := "b", created := 0,
          nextReview := 0, interval := 1, easeFactor := 2,
          repetitions := 0 } ⟨5⟩ 0).easeFactor = 2 + 0.1
      ∧ (∀ q : ℚ, q ≤ 3 →
          (SpacedRepetitionScheduler.reviewCard
        { id := "c", front := "f", back := "b", created := 0,
          nextReview := 0, interval := 1, easeFactor := 2,
          repetitions := 0 } ⟨q⟩ 0).easeFactor ≤ 2)
      ∧ (∀ q₁ q₂ : ℚ, q₁ ≤ q₂ →
          (SpacedRepetitionScheduler.reviewCard
        { id := "c", front := "f", back := "b", created := 0,
          nextReview := 0, interval := 1, easeFactor := 2,
          repetitions := 0 } ⟨q₁⟩ 0).easeFactor ≤
            (SpacedRepetitionScheduler.reviewCard
        { id := "c", front := "f", back := "b", created := 0,
          nextReview := 0, interval := 1, easeFactor := 2,
          repetitions := 0 } ⟨q₂⟩ 0).easeFactor)) :=
  ⟨by norm_num,
   reviewCard_easeFactor_monotone
    { id := "c", front := "f", back := "b", created := 0,
      nextReview := 0, interval := 1, easeFactor := 2,
      repetitions := 0 } 0 (by norm_num)⟩

/-- `GoalPriority` from `goalSystem.ts` (low | medium | high | critical). -/
inductive GoalPriority
  | low
  | medium
  | high
  | critical
deriving Repr, DecidableEq

/-- `TaskStatus` from `goalSystem.ts`
(not-started | in-progress | completed | blocked). -/
inductive TaskStatus
  | notStarted
  | inProgress
  | completed
  | blocked
deriving Repr, DecidableEq

/-- `GoalTask` from `goalSystem.ts` (fields read by the embedded logic). -/
structure GoalTask where
  id : String
  goalId : String
  title : String
  status : TaskStatus
  actualMinutes : ℚ
  dueDate : Option ℚ := none
  completedAt : Option ℚ := none
deriving Repr, DecidableEq

/-- `StudyGoal` from `goalSystem.ts` (fields read by the embedded logic;
dates are millisecond timestamps).  `sessionsCompleted` only ever holds a
count (`createGoal` starts it at 0, `linkSessionToGoal` increments it), so
it is modelled as `ℕ`. -/
structure StudyGoal where
  id : String
  title : String
  subject : String
  deadline : Option ℚ := none
  priority : GoalPriority
  targetHours : Option ℚ := none
  hoursCompleted : ℚ
  createdAt : ℚ
  completedAt : Option ℚ := none
  isActive : Bool
  tasks : List GoalTask
  dailyCommitment : Option ℚ := none
  sessionsCompleted : ℕ
  flashcardsCreated : ℚ
  flashcardsMastered : ℚ
  currentStreak : ℚ
deriving Repr, DecidableEq

/-- `GoalProgress` from `goalSystem.ts`.  `daysUntilDeadline` is the
`Math.ceil` result, hence an integer when present. -/
structure GoalProgress where
  goalId : String
  progressPercentage : ℚ
  tasksCompleted : ℕ
  totalTasks : ℕ
  hoursCompleted : ℚ
  targetHours : ℚ
  daysUntilDeadline : Option ℤ := none
  onTrack : Bool
  recommendedDailyMinutes : ℚ
  projectedCompletionDate : Option ℚ := none
deriving Repr, DecidableEq

namespace GoalManager

/-- `this.getGoals().find(g => g.id === goalId)`, the goal lookup used by
`calculateProgress`; `goals` is the stored goal list. -/
def findGoal (goals : List StudyGoal) (goalId : String) : Option StudyGoal :=
  goals.find? (fun g => g.id == goalId)

/-- `GoalManager.calculateProgress(goalId)` over the stored goal list
`goals`, with `now` the current time (`new Date()`) in milliseconds.
The mutable variables `daysUntilDeadline`, `onTrack`,
`recommendedDailyMinutes`, `projectedCompletionDate` of the source (with
initial values `undefined`, `true`, `0`, `undefined`) are gathered in the
tuple `res`.  The JS truthiness test `goal.dailyCommitment &&` is
rendered as `some dc` with `dc ≠ 0`. -/
def calculateProgress (goals : List StudyGoal) (now : ℚ) (goalId : String) :
    GoalProgress :=
  match findGoal goals goalId with
  | none =>
    { goalId := goalId, progressPercentage := 0, tasksCompleted := 0,
      totalTasks := 0, hoursCompleted := 0, targetHours := 0,
      daysUntilDeadline := none, onTrack := false,
      recommendedDailyMinutes := 0, projectedCompletionDate := none }
  | some goal =>
    let totalTasks := goal.tasks.length
    let tasksCompleted :=
      (goal.tasks.filter (fun t => t.status == TaskStatus.completed)).length
    let targetHours := goal.targetHours.getD 0
    let hoursCompleted := goal.hoursCompleted
    let progressPercentage : ℚ :=
      if 0 < totalTasks ∧ 0 < targetHours then
        ((tasksCompleted : ℚ) / (totalTasks : ℚ)) * 100 * 0.6 +
          (hoursCompleted / targetHours) * 100 * 0.4
      else if 0 < totalTasks then ((tasksCompleted : ℚ) / (totalTasks : ℚ)) * 100
      else if 0 < targetHours then (hoursCompleted / targetHours) * 100
      else 0
    let res : Option ℤ × Bool × ℚ × Option ℚ :=
      match goal.deadline with
      | some dl =>
        let daysUntilDeadline := jsCeil ((dl - now) / msPerDay)
        if 0 < targetHours then
          let hoursRemaining := targetHours - hoursCompleted
          if 0 < daysUntilDeadline then
            let requiredDailyHours := hoursRemaining / (daysUntilDeadline : ℚ)
            let recommendedDailyMinutes := jsCeil (requiredDailyHours * 60)
            let currentDailyAverage : ℚ :=
              if 0 < goal.sessionsCompleted then
                (hoursCompleted * 60) / max 1 ((now - goal.createdAt) / msPerDay)
              else 0
            let onTrack := decide ((recommendedDailyMinutes : ℚ) * 0.8 ≤ currentDailyAverage)
            let projectedCompletionDate : Option ℚ :=
              if 0 < currentDailyAverage then
                some (now + ((hoursRemaining * 60) / currentDailyAverage) * msPerDay)
              else none
            (some daysUntilDeadline, onTrack, (recommendedDailyMinutes : ℚ),
              projectedCompletionDate)
          else (some daysUntilDeadline, true, 0, none)
        else (some daysUntilDeadline, true, 0, none)
      | none =>
        match goal.dailyCommitment with
        | some dc =>
          if dc ≠ 0 ∧ 0 < targetHours then
            let hoursRemaining := targetHours - hoursCompleted
            let daysToComplete := (hoursRemaining * 60) / dc
            (none, true, dc, some (now + daysToComplete * msPerDay))
          else (none, true, 0, none)
        | none => (none, true, 0, none)
    { goalId := goalId
      progressPercentage := min 100 (max 0 progressPercentage)
      tasksCompleted := tasksCompleted
      totalTasks := totalTasks
      hoursCompleted := hoursCompleted
      targetHours := targetHours
      daysUntilDeadline := res.1
      onTrack := res.2.1
      recommendedDailyMinutes := res.2.2.1
      projectedCompletionDate := res.2.2.2 }

end GoalManager

/-- C9: for every stored goal list, current time and goal id, the progress
percentage reported by `calculateProgress` lies in `[0, 100]`; and when the
id matches no stored goal the result is the all-zero progress record with
`onTrack = false`. -/
theorem calculateProgress_percentage_bounds (goals : List StudyGoal)
    (now : ℚ) (goalId : String) :
    0 ≤ (GoalManager.calculateProgress goals now goalId).progressPercentage
    ∧ (GoalManager.calculateProgress goals now goalId).progressPercentage ≤ 100
    ∧ (GoalManager.findGoal goals goalId = none →
        GoalManager.calculateProgress goals now goalId =
          { goalId := goalId, progressPercentage := 0, tasksCompleted := 0,
            totalTasks := 0, hoursCompleted := 0, targetHours := 0,
            daysUntilDeadline := none, onTrack := false,
            recommendedDailyMinutes := 0, projectedCompletionDate := none }) := by
  rcases hfind : GoalManager.findGoal goals goalId with _ | goal
  · refine ⟨?_, ?_, fun _ => ?_⟩ <;>
      simp only [GoalManager.calculateProgress, hfind] <;> norm_num
  · refine ⟨?_, ?_, fun hnone => ?_⟩
    · simp only [GoalManager.calculateProgress, hfind]
      exact le_min (by norm_num) (le_max_left _ _)
    · simp only [GoalManager.calculateProgress, hfind]
      exact min_le_left _ _
    · exact absurd hnone (by simp)

/-- Witness for C9: a concrete stored list and an id matching no goal. -/
theorem calculateProgress_percentage_bounds_witness :
    0 ≤ (GoalManager.calculateProgress [] 0 "nope").progressPercentage
    ∧ (GoalManager.calculateProgress [] 0 "nope").progressPercentage ≤ 100
    ∧ GoalManager.calculateProgress [] 0 "nope" =
        { goalId := "nope", progressPercentage := 0, tasksCompleted := 0,
          totalTasks := 0, hoursCompleted := 0, targetHours := 0,
          daysUntilDeadline := none, onTrack := false,
          recommendedDailyMinutes := 0, projectedCompletionDate := none } := by
  obtain ⟨h1, h2, h3⟩ := calculateProgress_percentage_bounds [] 0 "nope"
  exact ⟨h1, h2, h3 rfl⟩

/-- A stored goal with no tasks, a one-hour target and two hours already
completed; used to exercise the percentage clamp in `calculateProgress`. -/
def hoursOnlyGoal : StudyGoal :=
  { id := "g", title := "t", subject := "s", priority := GoalPriority.medium,
    targetHours := some 1, hoursCompleted := 2, createdAt := 0,
    isActive := true, tasks := [], sessionsCompleted := 0,
    flashcardsCreated := 0, flashcardsMastered := 0, currentStreak := 0 }

/-- C2 counterexample: for a goal with no tasks, `targetHours = 1` and
`hoursCompleted = 2`, the claim says the returned percentage is
`100 * hoursCompleted / targetHours = 200`; the code clamps it to 100. -/
theorem calculateProgress_percentage_clamped :
    (GoalManager.calculateProgress [hoursOnlyGoal] 0 "g").progressPercentage = 100
    ∧ (GoalManager.calculateProgress [hoursOnlyGoal] 0 "g").progressPercentage ≠
        100 * (2 : ℚ) / 1 := by
  constructor
  · simp only [GoalManager.calculateProgress, GoalManager.findGoal,
      hoursOnlyGoal, List.find?]
    norm_num
  · simp only [GoalManager.calculateProgress, GoalManager.findGoal,
      hoursOnlyGoal, List.find?]
    norm_num

/-- C2 as amended: the returned progress percentage is the weighted blend
`0.6 * (100 * tasksCompleted / totalTasks) + 0.4 * (100 * hoursCompleted /
targetHours)` when the goal has at least one task and `targetHours > 0`,
the task ratio alone when only tasks exist, the hour ratio alone when only
`targetHours > 0`, and `0` when neither — in every case clamped into
`[0, 100]` by `Math.min(100, Math.max(0, ·))`. -/
theorem calculateProgress_percentage_formula (goals : List StudyGoal)
    (now : ℚ) (goalId : String) (goal : StudyGoal)
    (hfind : GoalManager.findGoal goals goalId = some goal) :
    let totalTasks := goal.tasks.length
    let tasksCompleted :=
      (goal.tasks.filter (fun t => t.status == TaskStatus.completed)).length
    let targetHours := goal.targetHours.getD 0
    let blend : ℚ :=
      if 0 < totalTasks ∧ 0 < targetHours then
        0.6 * (100 * (tasksCompleted : ℚ) / (totalTasks : ℚ)) +
          0.4 * (100 * goal.hoursCompleted / targetHours)
      else if 0 < totalTasks then 100 * (tasksCompleted : ℚ) / (totalTasks : ℚ)
      else if 0 < targetHours then 100 * goal.hoursCompleted / targetHours
      else 0
    (GoalManager.calculateProgress goals now goalId).progressPercentage =
      min 100 (max 0 blend) := by
  simp only [GoalManager.calculateProgress, hfind]
  congr 2
  split_ifs <;> ring

/-- Witness for the amended C2 at a concrete stored list. -/
theorem calculateProgress_percentage_formula_witness :
    GoalManager.findGoal [hoursOnlyGoal] "g" = some hoursOnlyGoal ∧
    ((let totalTasks := hoursOnlyGoal.tasks.length
      let tasksCompleted :=
        (hoursOnlyGoal.tasks.filter
          (fun t => t.status == TaskStatus.completed)).length
      let targetHours := hoursOnlyGoal.targetHours.getD 0
      let blend : ℚ :=
        if 0 < totalTasks ∧ 0 < targetHours then
          0.6 * (100 * (tasksCompleted : ℚ) / (totalTasks : ℚ)) +
            0.4 * (100 * hoursOnlyGoal.hoursCompleted / targetHours)
        else if 0 < totalTasks then
          100 * (tasksCompleted : ℚ) / (totalTasks : ℚ)
        else if 0 < targetHours then
          100 * hoursOnlyGoal.hoursCompleted / targetHours
        else 0
      (GoalManager.calculateProgress [hoursOnlyGoal] 0 "g").progressPercentage =
        min 100 (max 0 blend))) :=
  ⟨rfl, calculateProgress_percentage_formula [hoursOnlyGoal] 0 "g"
    hoursOnlyGoal rfl⟩

/-- The `onTrack` flag computed by `calculateProgress` for a found goal:
`true` unless the goal has a deadline, a positive hour target and a
positive (ceiled) number of days left, in which case it compares the
current daily average against 80% of the recommended daily minutes. -/
theorem calculateProgress_onTrack_cases (goals : List StudyGoal) (now : ℚ)
    (goalId : String) (goal : StudyGoal)
    (hfind : GoalManager.findGoal goals goalId = some goal) :
    (∀ dl : ℚ, goal.deadline = some dl →
      (GoalManager.calculateProgress goals now goalId).onTrack =
        (if 0 < goal.targetHours.getD 0 then
          if 0 < jsCeil ((dl - now) / msPerDay) then
            decide
              (((jsCeil (((goal.targetHours.getD 0 - goal.hoursCompleted) /
                  ((jsCeil ((dl - now) / msPerDay) : ℤ) : ℚ)) * 60)) : ℚ) * 0.8 ≤
                (if 0 < goal.sessionsCompleted then
                  (goal.hoursCompleted * 60) /
                    max 1 ((now - goal.createdAt) / msPerDay)
                else 0))
          else true
        else true))
    ∧ (goal.deadline = none →
        (GoalManager.calculateProgress goals now goalId).onTrack = true) := by
  constructor
  · intro dl hdl
    simp only [GoalManager.calculateProgress, hfind, hdl]
    split_ifs <;> rfl
  · intro hdl
    simp only [GoalManager.calculateProgress, hfind, hdl]
    rcases hdc : goal.dailyCommitment with _ | dc
    · rfl
    · simp only [hdc]
      split_ifs <;> rfl

/-- C4: for a stored goal with `targetHours > 0` and a deadline strictly in
the future (`daysUntilDeadline > 0`), `calculateProgress` reports
`onTrack = true` iff the average daily study minutes of the goal since creation
(`0` when `sessionsCompleted = 0`, otherwise
`hoursCompleted * 60 / max 1 (days since createdAt)`) is at least 80% of
`recommendedDailyMinutes = ceil (60 * (targetHours - hoursCompleted) /
daysUntilDeadline)`; for every other found goal (no deadline, deadline
passed, or no positive hour target) `onTrack` is reported `true`. -/
theorem calculateProgress_onTrack_iff (goals : List StudyGoal) (now : ℚ)
    (goalId : String) (goal : StudyGoal)
    (hfind : GoalManager.findGoal goals goalId = some goal) :
    (∀ dl : ℚ, goal.deadline = some dl →
      (0 < goal.targetHours.getD 0 → 0 < jsCeil ((dl - now) / msPerDay) →
        ((GoalManager.calculateProgress goals now goalId).onTrack = true ↔
          0.8 * ((jsCeil (60 * (goal.targetHours.getD 0 - goal.hoursCompleted) /
              ((jsCeil ((dl - now) / msPerDay) : ℤ) : ℚ))) : ℚ) ≤
            (if goal.sessionsCompleted = 0 then 0
            else (goal.hoursCompleted * 60) /
              max 1 ((now - goal.createdAt) / msPerDay))))
      ∧ (¬ (0 < goal.targetHours.getD 0 ∧ 0 < jsCeil ((dl - now) / msPerDay)) →
          (GoalManager.calculateProgress goals now goalId).onTrack = true))
    ∧ (goal.deadline = none →
        (GoalManager.calculateProgress goals now goalId).onTrack = true) := by
  obtain ⟨hsome, hnone⟩ :=
    calculateProgress_onTrack_cases goals now goalId goal hfind
  refine ⟨?_, hnone⟩
  intro dl hdl
  have h := hsome dl hdl
  constructor
  · intro ht hd
    rw [h, if_pos ht, if_pos hd, decide_eq_true_eq]
    have harg : ((goal.targetHours.getD 0 - goal.hoursCompleted) /
        ((jsCeil ((dl - now) / msPerDay) : ℤ) : ℚ)) * 60 =
        60 * (goal.targetHours.getD 0 - goal.hoursCompleted) /
          ((jsCeil ((dl - now) / msPerDay) : ℤ) : ℚ) := by ring
    rw [harg]
    have havg : (if 0 < goal.sessionsCompleted then
        (goal.hoursCompleted * 60) / max 1 ((now - goal.createdAt) / msPerDay)
        else (0:ℚ)) =
        (if goal.sessionsCompleted = 0 then (0:ℚ)
        else (goal.hoursCompleted * 60) /
          max 1 ((now - goal.createdAt) / msPerDay)) := by
      by_cases hs : goal.sessionsCompleted = 0
      · simp [hs]
      · simp [hs, Nat.pos_of_ne_zero hs]
    rw [havg]
    constructor <;> intro hle <;> linarith
  · intro hnand
    rw [h]
    by_cases ht : 0 < goal.targetHours.getD 0
    · have hd : ¬ 0 < jsCeil ((dl - now) / msPerDay) :=
        fun hd => hnand ⟨ht, hd⟩
      rw [if_pos ht, if_neg hd]
    · rw [if_neg ht]

/-- A stored goal with a one-day deadline, a one-hour target and no
sessions; used to exercise the on-track comparison. -/
def deadlineGoal : StudyGoal :=
  { id := "gw", title := "t", subject := "s", deadline := some 86400000,
    priority := GoalPriority.medium, targetHours := some 1,
    hoursCompleted := 0, createdAt := 0, isActive := true, tasks := [],
    sessionsCompleted := 0, flashcardsCreated := 0, flashcardsMastered := 0,
    currentStreak := 0 }

/-- Witness for C4 at a concrete stored list and time. -/
theorem calculateProgress_onTrack_iff_witness :
    GoalManager.findGoal [deadlineGoal] "gw" = some deadlineGoal ∧
    deadlineGoal.deadline = some 86400000 ∧
    0 < deadlineGoal.targetHours.getD 0 ∧
    0 < jsCeil ((86400000 - 0) / msPerDay) ∧
    ((GoalManager.calculateProgress [deadlineGoal] 0 "gw").onTrack = true ↔
      0.8 * ((jsCeil (60 * (deadlineGoal.targetHours.getD 0 -
          deadlineGoal.hoursCompleted) /
          ((jsCeil ((86400000 - 0) / msPerDay) : ℤ) : ℚ))) : ℚ) ≤
        (if deadlineGoal.sessionsCompleted = 0 then 0
        else (deadlineGoal.hoursCompleted * 60) /
          max 1 ((0 - deadlineGoal.createdAt) / msPerDay))) := by
  have hpos : 0 < jsCeil (((86400000 : ℚ) - 0) / msPerDay) := by
    rw [jsCeil, msPerDay]
    norm_num
  exact ⟨rfl, rfl, by norm_num [deadlineGoal], hpos,
    ((calculateProgress_onTrack_iff [deadlineGoal] 0 "gw" deadlineGoal
      rfl).1 86400000 rfl).1 (by norm_num [deadlineGoal]) hpos⟩

/-- The `recommendedAction` field of `DailyRecommendation` in `goalSystem.ts`
(deep-work | review | flashcards | light-study | break; the last is
rendered `breakTime` as `break` is a Lean keyword). -/
inductive RecommendedAction
  | deepWork
  | review
  | flashcards
  | lightStudy
  | breakTime
deriving Repr, DecidableEq

/-- The `urgency` field of `DailyRecommendation` in `goalSystem.ts`. -/
inductive Urgency
  | low
  | medium
  | high
  | critical
deriving Repr, DecidableEq

/-- `DailyRecommendation` from `goalSystem.ts`. -/
structure DailyRecommendation where
  goalId : String
  goalTitle : String
  priority : ℚ
  recommendedAction : RecommendedAction
  suggestedDuration : ℚ
  suggestedPreset : String
  reasoning : String
  urgency : Urgency
deriving Repr, DecidableEq

namespace GoalManager

/-- `GoalManager.getActiveGoals()`: stored goals with `isActive` set and no
`completedAt` (a present `Date` is truthy, so `!g.completedAt` is
`completedAt == none`). -/
def getActiveGoals (goals : List StudyGoal) : List StudyGoal :=
  goals.filter (fun g => g.isActive && g.completedAt == none)

/-- The `priorityBoost` table of `getDailyRecommendations`
(`{ critical: 3, high: 2, medium: 0, low: -1 }`). -/
def priorityBoost : GoalPriority → ℚ
  | GoalPriority.critical => 3
  | GoalPriority.high => 2
  | GoalPriority.medium => 0
  | GoalPriority.low => -1

/-- JS string interpolation of a possibly-`undefined` number. -/
def optIntToString : Option ℤ → String
  | some v => toString v
  | none => "undefined"

/-- The body of the `for (const goal of activeGoals)` loop of
`GoalManager.getDailyRecommendations`: the recommendation pushed for one
active goal.  `up` gathers the mutable pair (`urgency`, `priority`) before
the priority boost; `adpr` gathers (`recommendedAction`,
`suggestedDuration`, `suggestedPreset`, `reasoning`). -/
def recommendationFor (goals : List StudyGoal) (now : ℚ) (goal : StudyGoal) :
    DailyRecommendation :=
  let progress := calculateProgress goals now goal.id
  let up : Urgency × ℚ :=
    match progress.daysUntilDeadline with
    | some d =>
      if d ≤ 2 then (Urgency.critical, 10)
      else if d ≤ 7 then (Urgency.high, 8)
      else if d ≤ 14 then (Urgency.medium, 6)
      else (Urgency.low, 4)
    | none => (Urgency.medium, 5)
  let urgency := up.1
  let priority := up.2 + priorityBoost goal.priority
  let adpr : RecommendedAction × ℚ × String × String :=
    if 70 < progress.progressPercentage then
      (RecommendedAction.review, 25, "classic",
        "You\u0027re " ++ toString (jsRound progress.progressPercentage) ++
          "% complete. Focus on reviewing and consolidating knowledge.")
    else if urgency = Urgency.critical then
      (RecommendedAction.deepWork, 50, "deep-work",
        "Deadline in " ++ optIntToString progress.daysUntilDeadline ++
          " days! Deep focus session recommended.")
    else if progress.onTrack = false ∧ urgency ≠ Urgency.low then
      (RecommendedAction.deepWork, 50, "deep-work",
        "Behind schedule. Need " ++ toString progress.recommendedDailyMinutes ++
          " min/day to stay on track.")
    else if 0 < goal.flashcardsCreated ∧
        goal.flashcardsMastered * 2 < goal.flashcardsCreated then
      (RecommendedAction.flashcards, 15, "quick-study",
        "Many flashcards need review. Quick study session recommended.")
    else
      (RecommendedAction.deepWork, 25, "classic",
        "Continue steady progress on " ++ goal.subject ++ ".")
  { goalId := goal.id, goalTitle := goal.title, priority := priority,
    recommendedAction := adpr.1, suggestedDuration := adpr.2.1,
    suggestedPreset := adpr.2.2.1, reasoning := adpr.2.2.2,
    urgency := urgency }

/-- `GoalManager.getDailyRecommendations()`: one recommendation per active
goal, sorted by descending priority (`sort((a, b) => b.priority -
a.priority)`, a stable descending sort, modelled by `mergeSort`). -/
def getDailyRecommendations (goals : List StudyGoal) (now : ℚ) :
    List DailyRecommendation :=
  ((getActiveGoals goals).map (recommendationFor goals now)).mergeSort
    (fun a b => decide (b.priority ≤ a.priority))

end GoalManager

/-- When goal ids are distinct, looking up the id of a stored goal finds
that goal. -/
theorem findGoal_eq_self (goals : List StudyGoal) (g : StudyGoal)
    (hnodup : (goals.map (fun x => x.id)).Nodup) (hg : g ∈ goals) :
    GoalManager.findGoal goals g.id = some g := by
  induction goals with
  | nil => cases hg
  | cons a tl ih =>
    rw [List.map_cons, List.nodup_cons] at hnodup
    obtain ⟨hna, hntl⟩ := hnodup
    rcases List.mem_cons.mp hg with rfl | hgtl
    · simp [GoalManager.findGoal, List.find?]
    · have hne : (a.id == g.id) = false := by
        apply beq_eq_false_iff_ne.mpr
        intro heq
        exact hna (heq ▸ List.mem_map_of_mem (fun x => x.id) hgtl)
      simp only [GoalManager.findGoal, List.find?, hne]
      exact ih hntl hgtl

/-- `daysUntilDeadline` reported by `calculateProgress` for a found goal:
the ceiled number of days to the deadline when one is set, `undefined`
otherwise. -/
theorem calculateProgress_daysUntilDeadline_eq (goals : List StudyGoal)
    (now : ℚ) (goalId : String) (goal : StudyGoal)
    (hfind : GoalManager.findGoal goals goalId = some goal) :
    (GoalManager.calculateProgress goals now goalId).daysUntilDeadline =
      (match goal.deadline with
        | some dl => some (jsCeil ((dl - now) / msPerDay))
        | none => none) := by
  simp only [GoalManager.calculateProgress, hfind]
  rcases hdl : goal.deadline with _ | dl
  · rcases hdc : goal.dailyCommitment with _ | dc
    · rfl
    · simp only [hdc]
      split_ifs <;> rfl
  · simp only [hdl]
    split_ifs <;> rfl

/-- C6: `getDailyRecommendations` returns exactly one recommendation per
active goal (the result is a permutation of the per-goal recommendations),
the returned list is sorted in non-increasing priority, and, when goal ids
are distinct, the priority of each goal is its deadline-urgency tier (10 when
`daysUntilDeadline ≤ 2`, 8 when `≤ 7`, 6 when `≤ 14`, 4 otherwise, 5 with
no deadline) plus the boost +3 / +2 / 0 / -1 for critical / high / medium
/ low goal priority. -/
theorem getDailyRecommendations_spec (goals : List StudyGoal) (now : ℚ)
    (hnodup : (goals.map (fun g => g.id)).Nodup) :
    (GoalManager.getDailyRecommendations goals now).Perm
      ((GoalManager.getActiveGoals goals).map
        (GoalManager.recommendationFor goals now))
    ∧ (GoalManager.getDailyRecommendations goals now).Pairwise
        (fun a b => b.priority ≤ a.priority)
    ∧ ∀ g ∈ GoalManager.getActiveGoals goals,
        (GoalManager.recommendationFor goals now g).priority =
          (match g.deadline with
            | some dl =>
              if jsCeil ((dl - now) / msPerDay) ≤ 2 then (10:ℚ)
              else if jsCeil ((dl - now) / msPerDay) ≤ 7 then 8
              else if jsCeil ((dl - now) / msPerDay) ≤ 14 then 6
              else 4
            | none => 5) + GoalManager.priorityBoost g.priority := by
  refine ⟨List.mergeSort_perm _ _, ?_, ?_⟩
  · have h := @List.sorted_mergeSort DailyRecommendation
      (fun a b => decide (b.priority ≤ a.priority)) ?_ ?_
      ((GoalManager.getActiveGoals goals).map
        (GoalManager.recommendationFor goals now))
    · exact h.imp (by simp)
    · intro a b c
      simp only [decide_eq_true_eq]
      exact fun h1 h2 => le_trans h2 h1
    · intro a b
      simp only [Bool.or_eq_true, decide_eq_true_eq]
      exact le_total b.priority a.priority
  · intro g hg
    simp only [GoalManager.getActiveGoals] at hg
    have hmem : g ∈ goals := (List.mem_filter.mp hg).1
    have hfind := findGoal_eq_self goals g hnodup hmem
    have hdays := calculateProgress_daysUntilDeadline_eq goals now g.id g hfind
    simp only [GoalManager.recommendationFor, hdays]
    rcases hdl : g.deadline with _ | dl
    · rfl
    · simp only []
      split_ifs <;> rfl

/-- An active low-priority goal with no deadline. -/
def calmGoal : StudyGoal :=
  { id := "c", title := "calm", subject := "s",
    priority := GoalPriority.low, hoursCompleted := 0, createdAt := 0,
    isActive := true, tasks := [], sessionsCompleted := 0,
    flashcardsCreated := 0, flashcardsMastered := 0, currentStreak := 0 }

/-- An active critical goal whose deadline is one day away. -/
def urgentGoal : StudyGoal :=
  { id := "u", title := "urgent", subject := "s",
    deadline := some 86400000, priority := GoalPriority.critical,
    hoursCompleted := 0, createdAt := 0, isActive := true, tasks := [],
    sessionsCompleted := 0, flashcardsCreated := 0, flashcardsMastered := 0,
    currentStreak := 0 }

/-- Witness for C6 at a concrete two-goal store. -/
theorem getDailyRecommendations_spec_witness :
    ([calmGoal, urgentGoal].map (fun g => g.id)).Nodup ∧
    ((GoalManager.getDailyRecommendations [calmGoal, urgentGoal] 0).Perm
      ((GoalManager.getActiveGoals [calmGoal, urgentGoal]).map
        (GoalManager.recommendationFor [calmGoal, urgentGoal] 0))
    ∧ (GoalManager.getDailyRecommendations [calmGoal, urgentGoal] 0).Pairwise
        (fun a b => b.priority ≤ a.priority)
    ∧ ∀ g ∈ GoalManager.getActiveGoals [calmGoal, urgentGoal],
        (GoalManager.recommendationFor [calmGoal, urgentGoal] 0 g).priority =
          (match g.deadline with
            | some dl =>
              if jsCeil ((dl - 0) / msPerDay) ≤ 2 then (10:ℚ)
              else if jsCeil ((dl - 0) / msPerDay) ≤ 7 then 8
              else if jsCeil ((dl - 0) / msPerDay) ≤ 14 then 6
              else 4
            | none => 5) + GoalManager.priorityBoost g.priority) :=
  ⟨by simp [calmGoal, urgentGoal],
   getDailyRecommendations_spec [calmGoal, urgentGoal] 0
     (by simp [calmGoal, urgentGoal])⟩

namespace FlashcardStorage

/-- `FlashcardStorage.loadCards()`.  `stored` is what
`localStorage.getItem` returned for the flashcards key; `parse` abstracts
`JSON.parse` together with the typing of the decoded array (a thrown
exception becomes `Except.error`, caught by the surrounding try/catch).
The `.map` re-creating `Date` fields from their serialized form is the
identity on our timestamp model. -/
def loadCards (parse : String → Except String (List FlashcardData))
    (stored : Option String) : List FlashcardData :=
  match stored with
  | none => []
  | some s =>
    match parse s with
    | Except.error _ => []
    | Except.ok cards =>
      cards.map (fun card =>
        { card with
          created := card.created
          lastReviewed := card.lastReviewed
          nextReview := card.nextReview })

end FlashcardStorage

namespace GoalManager

/-- `GoalManager.getGoals()`.  `stored` is what
`localStorage.getItem` returned for the goals key; `parse` abstracts
`JSON.parse` plus the typing of the decoded array (`goal.tasks?.map(...) ||
[]` is covered by `tasks` being a list after parsing); the date-rehydrating
`.map` is the identity on our timestamp model. -/
def getGoals (parse : String → Except String (List StudyGoal))
    (stored : Option String) : List StudyGoal :=
  match stored with
  | none => []
  | some s =>
    match parse s with
    | Except.error _ => []
    | Except.ok parsed =>
      parsed.map (fun goal =>
        { goal with
          deadline := goal.deadline
          createdAt := goal.createdAt
          completedAt := goal.completedAt
          tasks := goal.tasks.map (fun task =>
            { task with
              dueDate := task.dueDate
              completedAt := task.completedAt }) })

end GoalManager

/-- C7: with the flashcards (resp. goals) blob absent, or present but not
parseable, `FlashcardStorage.loadCards` (resp. `GoalManager.getGoals`)
returns the empty list; both functions are total, so no exception
escapes. -/
theorem storage_load_failure_returns_empty
    (parseC : String → Except String (List FlashcardData))
    (parseG : String → Except String (List StudyGoal))
    (s1 s2 e1 e2 : String) :
    FlashcardStorage.loadCards parseC none = []
    ∧ (parseC s1 = Except.error e1 →
        FlashcardStorage.loadCards parseC (some s1) = [])
    ∧ GoalManager.getGoals parseG none = []
    ∧ (parseG s2 = Except.error e2 →
        GoalManager.getGoals parseG (some s2) = []) := by
  refine ⟨rfl, ?_, rfl, ?_⟩ <;> intro h <;>
    simp [FlashcardStorage.loadCards, GoalManager.getGoals, h]

/-- Witness for C7 with a concrete failing parse and a concrete blob. -/
theorem storage_load_failure_returns_empty_witness :
    ((fun _ : String => (Except.error "SyntaxError" :
        Except String (List FlashcardData))) "x" = Except.error "SyntaxError")
    ∧ ((fun _ : String => (Except.error "SyntaxError" :
        Except String (List StudyGoal))) "y" = Except.error "SyntaxError")
    ∧ FlashcardStorage.loadCards
        (fun _ => Except.error "SyntaxError") none = []
    ∧ FlashcardStorage.loadCards
        (fun _ => Except.error "SyntaxError") (some "x") = []
    ∧ GoalManager.getGoals (fun _ => Except.error "SyntaxError") none = []
    ∧ GoalManager.getGoals
        (fun _ => Except.error "SyntaxError") (some "y") = [] := by
  obtain ⟨h1, h2, h3, h4⟩ := storage_load_failure_returns_empty
    (fun _ => Except.error "SyntaxError")
    (fun _ => Except.error "SyntaxError") "x" "y" "SyntaxError" "SyntaxError"
  exact ⟨rfl, rfl, h1, h2 rfl, h3, h4 rfl⟩

/-- `SessionGoalLink` from `goalSystem.ts`. -/
structure SessionGoalLink where
  sessionId : String
  goalId : String
  taskId : Option String := none
  minutesWorked : ℚ
  focusRating : ℚ
  progressMade : Bool
  completedTask : Bool
  notes : Option String := none
  timestamp : ℚ
deriving Repr, DecidableEq

/-- The two local-storage blobs touched by `linkSessionToGoal`: the stored
goal list (`pomodoro-study-goals`) and the stored session-link log
(`pomodoro-goal-sessions`), after parsing. -/
structure GoalStore where
  goals : List StudyGoal
  sessions : List SessionGoalLink
deriving Repr, DecidableEq

/-- Updates the first element satisfying `p` (JS `Array.find` followed by
in-place mutation of the found object). -/
def updateFirst {α : Type} (p : α → Bool) (f : α → α) : List α → List α
  | [] => []
  | x :: xs => if p x then f x :: xs else x :: updateFirst p f xs

namespace GoalManager

/-- The mutation `linkSessionToGoal` applies to the found goal:
`sessionsCompleted += 1`, `hoursCompleted += minutesWorked / 60`, and the
task update when a `taskId` was given (`actualMinutes += minutesWorked`;
status moved to completed — with `completedAt = new Date()`, i.e. `now` —
when `completedTask`, else from not-started to in-progress). -/
def applySessionLink (link : SessionGoalLink) (now : ℚ) (goal : StudyGoal) :
    StudyGoal :=
  { goal with
    sessionsCompleted := goal.sessionsCompleted + 1
    hoursCompleted := goal.hoursCompleted + link.minutesWorked / 60
    tasks :=
      match link.taskId with
      | none => goal.tasks
      | some tid =>
        updateFirst (fun t => t.id == tid)
          (fun task =>
            let task :=
              { task with actualMinutes := task.actualMinutes + link.minutesWorked }
            if link.completedTask then
              { task with status := TaskStatus.completed, completedAt := some now }
            else if task.status == TaskStatus.notStarted then
              { task with status := TaskStatus.inProgress }
            else task)
          goal.tasks }

/-- `GoalManager.linkSessionToGoal(sessionLink)` over the parsed storage
state, with `now` the current time: the link is pushed onto the session
log, and the first goal whose id matches `sessionLink.goalId` (if any) is
updated; when no goal matches, `saveGoals` is never reached and the stored
goals are untouched (`updateFirst` is then the identity). -/
def linkSessionToGoal (state : GoalStore) (link : SessionGoalLink)
    (now : ℚ) : GoalStore :=
  { sessions := state.sessions ++ [link]
    goals := updateFirst (fun g => g.id == link.goalId)
      (applySessionLink link now) state.goals }

end GoalManager

/-- `updateFirst` is the identity when no element satisfies the
predicate. -/
theorem updateFirst_id {α : Type} (p : α → Bool) (f : α → α) (l : List α)
    (h : ∀ x ∈ l, p x = false) : updateFirst p f l = l := by
  induction l with
  | nil => rfl
  | cons a tl ih =>
    have ha := h a (List.mem_cons_self a tl)
    simp only [updateFirst, ha, Bool.false_eq_true, if_false]
    rw [ih (fun x hx => h x (List.mem_cons_of_mem a hx))]

/-- C10: when the `goalId` of a session link matches no stored goal,
`linkSessionToGoal` still appends the link to the stored session log but
leaves every stored goal unchanged. -/
theorem linkSessionToGoal_frame (state : GoalStore) (link : SessionGoalLink)
    (now : ℚ) (h : ∀ g ∈ state.goals, g.id ≠ link.goalId) :
    (GoalManager.linkSessionToGoal state link now).sessions =
      state.sessions ++ [link]
    ∧ (GoalManager.linkSessionToGoal state link now).goals = state.goals := by
  refine ⟨rfl, ?_⟩
  simp only [GoalManager.linkSessionToGoal]
  exact updateFirst_id _ _ _
    (fun g hg => beq_eq_false_iff_ne.mpr (h g hg))

/-- Witness for C10 at a concrete store and link. -/
theorem linkSessionToGoal_frame_witness :
    (∀ g ∈ ({ goals := [calmGoal], sessions := [] } : GoalStore).goals,
      g.id ≠ "missing")
    ∧ (GoalManager.linkSessionToGoal { goals := [calmGoal], sessions := [] }
        { sessionId := "s1", goalId := "missing", minutesWorked := 25,
          focusRating := 4, progressMade := true, completedTask := false,
          timestamp := 0 } 0).sessions =
      ([] : List SessionGoalLink) ++
        [{ sessionId := "s1", goalId := "missing", minutesWorked := 25,
           focusRating := 4, progressMade := true, completedTask := false,
           timestamp := 0 }]
    ∧ (GoalManager.linkSessionToGoal { goals := [calmGoal], sessions := [] }
        { sessionId := "s1", goalId := "missing", minutesWorked := 25,
          focusRating := 4, progressMade := true, completedTask := false,
          timestamp := 0 } 0).goals = [calmGoal] := by
  have h : ∀ g ∈ ({ goals := [calmGoal], sessions := [] } : GoalStore).goals,
      g.id ≠ "missing" := by
    intro g hg
    simp only [List.mem_singleton] at hg
    subst hg
    simp [calmGoal]
  obtain ⟨h1, h2⟩ := linkSessionToGoal_frame
    { goals := [calmGoal], sessions := [] }
    { sessionId := "s1", goalId := "missing", minutesWorked := 25,
      focusRating := 4, progressMade := true, completedTask := false,
      timestamp := 0 } 0 h
  exact ⟨h, h1, h2⟩

/-- The `triggerType` field of `StoryMilestone` in `storyGoalIntegration.ts`
(progress | streak | completion | task-count | deadline-proximity). -/
inductive TriggerType
  | progress
  | streak
  | completion
  | taskCount
  | deadlineProximity
deriving Repr, DecidableEq

/-- Character moods of `storyGoalIntegration.ts`
(focused | struggling | successful | determined). -/
inductive CharacterMood
  | focused
  | struggling
  | successful
  | determined
deriving Repr, DecidableEq

/-- The `storyContent` field of `StoryMilestone` in `storyGoalIntegration.ts`. -/
structure StoryContent where
  title : String
  text : String
  characterMood : CharacterMood
  backgroundUrl : Option String := none
  unlocked : Bool
  unlockedAt : Option ℚ := none
deriving Repr, DecidableEq

/-- `StoryMilestone` from `storyGoalIntegration.ts`. -/
structure StoryMilestone where
  id : String
  goalId : String
  triggerType : TriggerType
  triggerValue : ℚ
  storyContent : StoryContent
deriving Repr, DecidableEq

/-- `AdaptiveStoryContent` from `storyGoalIntegration.ts`. -/
structure AdaptiveStoryContent where
  text : String
  characterMood : CharacterMood
  chapter : String
  milestone : Option StoryMilestone := none
deriving Repr, DecidableEq

namespace StoryGoalEngine

/-- `StoryGoalEngine.generateDefaultMilestones(goalId)`: the seven default
milestones for a stored goal (empty when the goal id matches no stored
goal).  The `saveMilestones` write-back does not affect any returned
value and is not modelled. -/
def generateDefaultMilestones (goals : List StudyGoal) (goalId : String) :
    List StoryMilestone :=
  match GoalManager.findGoal goals goalId with
  | none => []
  | some goal =>
    [ { id := goalId ++ "-first-session", goalId := goalId,
        triggerType := TriggerType.progress, triggerValue := 5,
        storyContent :=
          { title := "🎯 First Steps",
            text := "Your journey toward " ++ goal.title ++
              " begins! The ancient tome speaks of a powerful dragon guarding this knowledge. Many have tried, but only those with true dedication succeed. You\u0027ve taken the first step - 5% complete. The dragon has noticed you.",
            characterMood := CharacterMood.determined, unlocked := false } },
      { id := goalId ++ "-quarter", goalId := goalId,
        triggerType := TriggerType.progress, triggerValue := 25,
        storyContent :=
          { title := "⚔️ First Blood",
            text := "MILESTONE ACHIEVED! You\u0027ve reached 25% completion on " ++
              goal.title ++
              "! The Dragon of Distraction has felt your blade for the first time. It roars in pain and surprise - you\u0027re no ordinary challenger. Your focused effort has drawn first blood in this epic battle!",
            characterMood := CharacterMood.successful, unlocked := false } },
      { id := goalId ++ "-halfway", goalId := goalId,
        triggerType := TriggerType.progress, triggerValue := 50,
        storyContent :=
          { title := "🔥 The Turning Point",
            text := "EPIC MILESTONE! Halfway through " ++ goal.title ++
              "! The dragon\u0027s strength wanes as yours grows. What started as an impossible quest now feels achievable. The treasure chamber\u0027s glow is visible in the distance. Your persistence is legendary!",
            characterMood := CharacterMood.successful, unlocked := false } },
      { id := goalId ++ "-three-quarters", goalId := goalId,
        triggerType := TriggerType.progress, triggerValue := 75,
        storyContent :=
          { title := "🌟 Victory Approaches",
            text := "TREMENDOUS ACHIEVEMENT! 75% of " ++ goal.title ++
              " conquered! The dragon lies wounded, its defenses shattered by your unwavering focus. The gates to the treasure chamber stand before you. One final push and ultimate victory will be yours!",
            characterMood := CharacterMood.successful, unlocked := false } },
      { id := goalId ++ "-completion", goalId := goalId,
        triggerType := TriggerType.completion, triggerValue := 100,
        storyContent :=
          { title := "🏆 ULTIMATE VICTORY",
            text := "🎉🎉🎉 LEGENDARY TRIUMPH! " ++ goal.title ++
              " COMPLETE! The mighty Dragon of Distraction lies defeated! The treasure chamber bursts open, showering you with the wisdom and knowledge you sought. Songs will be sung of your focused determination and unwavering spirit. You are a true scholar-warrior! 🏆✨",
            characterMood := CharacterMood.successful, unlocked := false } },
      { id := goalId ++ "-streak-3", goalId := goalId,
        triggerType := TriggerType.streak, triggerValue := 3,
        storyContent :=
          { title := "🔥 Building Momentum",
            text := "STREAK BONUS! Three days of focused work on " ++
              goal.title ++
              "! Your consistency forges a blade sharper than any steel. The dragon cannot heal between your daily assaults. This is how legends are made!",
            characterMood := CharacterMood.focused, unlocked := false } },
      { id := goalId ++ "-streak-7", goalId := goalId,
        triggerType := TriggerType.streak, triggerValue := 7,
        storyContent :=
          { title := "⚡ Week Warrior",
            text := "INCREDIBLE STREAK! Seven consecutive days on " ++
              goal.title ++
              "! Your discipline is unbreakable. The dragon trembles before your relentless advance. This kind of dedication separates champions from dreamers!",
            characterMood := CharacterMood.successful, unlocked := false } } ]

/-- `StoryGoalEngine.getMilestones(goalId)`: `store` maps a goal id to the
parsed content of the `pomodoro-story-milestones-${goalId}` blob (`none`
when absent — or unparseable, which the catch clause treats identically);
default milestones are generated when nothing usable is stored. -/
def getMilestones (store : String → Option (List StoryMilestone))
    (goals : List StudyGoal) (goalId : String) : List StoryMilestone :=
  match store goalId with
  | none => generateDefaultMilestones goals goalId
  | some ms => ms

/-- `StoryGoalEngine.checkForMilestone(goal, progress, focusLevel)`: the
first not-yet-unlocked milestone whose trigger fires (`focusLevel` is
accepted but never read, as in the source). -/
def checkForMilestone (milestones : List StoryMilestone) (goal : StudyGoal)
    (progress : GoalProgress) (_focusLevel : ℚ) : Option StoryMilestone :=
  milestones.find? (fun m =>
    !m.storyContent.unlocked &&
      (match m.triggerType with
       | TriggerType.progress =>
         decide (m.triggerValue ≤ progress.progressPercentage)
       | TriggerType.streak =>
         decide (m.triggerValue ≤ goal.currentStreak)
       | TriggerType.completion =>
         decide (100 ≤ progress.progressPercentage)
       | TriggerType.taskCount =>
         decide (m.triggerValue ≤ (progress.tasksCompleted : ℚ))
       | TriggerType.deadlineProximity =>
         match progress.daysUntilDeadline with
         | some d => decide ((d : ℚ) ≤ m.triggerValue) && progress.onTrack
         | none => false))

end StoryGoalEngine

namespace StoryGoalEngine

/-- `StoryGoalEngine.getAdaptiveStory(goal, progress, focusLevel, isBreak)`:
chapter, text and mood picked by progress-percentage thresholds and the
(`isFocused`, `isOnTrack`) pair; `pct`, `days`, `rmin`, `tc`, `tt` are the
interpolated values `Math.round(progressPercent)`,
`progress.daysUntilDeadline || "?"` (with JS falsiness),
`progress.recommendedDailyMinutes`, `progress.tasksCompleted` and
`progress.totalTasks`. -/
def getAdaptiveStory (goal : StudyGoal) (progress : GoalProgress)
    (focusLevel : ℚ) (isBreak : Bool) : AdaptiveStoryContent :=
  let isFocused := decide (4 ≤ focusLevel)
  let isOnTrack := progress.onTrack
  let progressPercent := progress.progressPercentage
  let pct := toString (jsRound progressPercent)
  let days :=
    match progress.daysUntilDeadline with
    | some v => if v = 0 then "?" else toString v
    | none => "?"
  let rmin := toString progress.recommendedDailyMinutes
  let tc := toString progress.tasksCompleted
  let tt := toString progress.totalTasks
  if progressPercent < 25 then
    let chapter := "Chapter 1: The Quest Begins"
    if isFocused && isOnTrack then
      { chapter := chapter, characterMood := CharacterMood.focused,
        text := if isBreak then
          "Excellent start, warrior! You\u0027ve made solid progress on " ++
            goal.title ++ ". " ++ pct ++
            "% complete - your focused effort is building momentum. The dragon senses your determination and grows wary."
        else
          "Your journey toward " ++ goal.title ++
            " has begun well! With " ++ days ++
            " days remaining, you\u0027re building a strong foundation. Each focused session weakens the Dragon of Distraction\u0027s hold over the knowledge you seek." }
    else if !isFocused && isOnTrack then
      { chapter := chapter, characterMood := CharacterMood.determined,
        text := if isBreak then
          "You\u0027re maintaining pace on " ++ goal.title ++
            ", but the path grows harder when focus wavers. " ++ pct ++
            "% complete - stay vigilant to keep your advantage over the dragon."
        else
          "The dragon tests you early in your quest for " ++ goal.title ++
            ". Though you\u0027re on schedule, scattered attention gives it openings to strike. Sharpen your focus, brave scholar!" }
    else if isFocused && !isOnTrack then
      { chapter := chapter, characterMood := CharacterMood.determined,
        text := if isBreak then
          "Your focus burns bright on " ++ goal.title ++
            ", but time grows short! With " ++ days ++
            " days left, you need " ++ rmin ++
            " minutes daily to overcome the dragon. This focused effort is your greatest weapon!"
        else
          "The dragon has gained ground, but you fight back with fierce concentration! " ++
            goal.title ++ " demands " ++ rmin ++
            " minutes of daily focus. You\u0027re " ++ pct ++
            "% there - each focused session is a blow against the beast!" }
    else
      { chapter := chapter, characterMood := CharacterMood.struggling,
        text := if isBreak then
          "The dragon gains strength as your attention falters on " ++
            goal.title ++ ". Only " ++ pct ++ "% complete with " ++ days ++
            " days remaining. Rally your focus - the quest can still be won!"
        else
          "The Dragon of Distraction roars triumphantly as you struggle with " ++
            goal.title ++
            "! Behind schedule and losing focus - but remember, even the mightiest heroes face dark moments. Find your inner strength!" }
  else if progressPercent < 50 then
    let chapter := "Chapter 2: The Dragon Weakens"
    if isFocused && isOnTrack then
      { chapter := chapter, characterMood := CharacterMood.successful,
        text := if isBreak then
          "Magnificent! You\u0027ve reached " ++ pct ++ "% on " ++
            goal.title ++
            " - the dragon reels from your sustained assault! " ++ tc ++
            "/" ++ tt ++
            " tasks conquered. Your disciplined approach is paying off brilliantly!"
        else
          "The dragon\u0027s defenses crumble before your focused determination on " ++
            goal.title ++
            "! Nearly halfway through your quest, with " ++ days ++
            " days to victory. The beast fears your unwavering concentration!" }
    else if !isFocused && isOnTrack then
      { chapter := chapter, characterMood := CharacterMood.determined,
        text := if isBreak then
          pct ++ "% progress on " ++ goal.title ++
            " - you\u0027re maintaining the pace, but the dragon adapts to your wavering focus. Stay sharp to keep your advantage!"
        else
          "Halfway through the battle for " ++ goal.title ++
            ", the dragon exploits every moment of distraction. You\u0027re still on schedule, but victory requires sharper focus. Raise your shield of concentration!" }
    else if isFocused && !isOnTrack then
      { chapter := chapter, characterMood := CharacterMood.focused,
        text := if isBreak then
          "Your blade of focus cuts deep into the dragon protecting " ++
            goal.title ++ "! " ++ pct ++
            "% complete, but time is your enemy now. Need " ++ rmin ++
            " min/day to catch up. Your renewed concentration is powerful!"
        else
          "Though behind schedule on " ++ goal.title ++
            ", your focus blazes bright! " ++ tc ++
            " tasks down, more to go. With " ++ days ++
            " days left and " ++ rmin ++
            " minutes needed daily, your concentrated effort is the key!" }
    else
      { chapter := chapter, characterMood := CharacterMood.struggling,
        text := if isBreak then
          "The dragon strengthens as focus falters on " ++ goal.title ++
            ". " ++ pct ++
            "% complete but falling behind schedule. The treasure still awaits those who persevere - but action is needed now!"
        else
          "Danger! The dragon\u0027s flames overwhelm you as " ++ goal.title ++
            " slips further behind! Only " ++ days ++
            " days remain. Desperate times call for desperate measures - rally every ounce of focus!" }
  else if progressPercent < 75 then
    let chapter := "Chapter 3: Victory in Sight"
    if isFocused && isOnTrack then
      { chapter := chapter, characterMood := CharacterMood.successful,
        text := if isBreak then
          "INCREDIBLE! " ++ pct ++ "% of " ++ goal.title ++
            " conquered! The dragon limps away, defeated by your relentless focus. " ++
            tc ++ "/" ++ tt ++
            " tasks completed. The treasure chamber is nearly yours!"
        else
          "The dragon\u0027s final roar echoes as you approach " ++ pct ++
            "% completion on " ++ goal.title ++ "! Only " ++ days ++
            " days until total victory. Your focused assault has been masterful!" }
    else if !isFocused && isOnTrack then
      { chapter := chapter, characterMood := CharacterMood.determined,
        text := if isBreak then
          "You\u0027re " ++ pct ++ "% through " ++ goal.title ++
            " - victory approaches, but complacency is dangerous. The dragon still has claws. Maintain your focus for the final push!"
        else
          "So close to defeating the dragon on " ++ goal.title ++
            ", yet its dying strength targets your wandering attention. " ++
            tc ++ " tasks done - stay focused for the final battle!" }
    else if isFocused && !isOnTrack then
      { chapter := chapter, characterMood := CharacterMood.focused,
        text := if isBreak then
          pct ++ "% complete on " ++ goal.title ++
            " - your focused rally is working! Still need " ++ rmin ++
            " min/day, but the finish line appears. Don\u0027t let up now!"
        else
          "With fierce focus, you\u0027re clawing back ground on " ++
            goal.title ++ "! " ++ days ++
            " days to go. The dragon weakens under your assault - " ++ rmin ++
            " minutes daily will seal your victory!" }
    else
      { chapter := chapter, characterMood := CharacterMood.struggling,
        text := if isBreak then
          "So close yet so far on " ++ goal.title ++ ". " ++ pct ++
            "% done but focus wavers when you need it most. The dragon senses weakness. Summon your final reserves!"
        else
          "The dragon makes a desperate stand as " ++ goal.title ++
            " nears completion! You\u0027re behind with only " ++ days ++
            " days left. This is the moment that defines heroes - focus now or lose everything!" }
  else
    let chapter := "Chapter 4: The Final Strike"
    if isFocused && isOnTrack then
      { chapter := chapter, characterMood := CharacterMood.successful,
        text := if isBreak then
          "GLORIOUS TRIUMPH! " ++ pct ++ "% of " ++ goal.title ++
            " achieved! The mighty dragon lies defeated at your feet! The treasure chamber opens before you, revealing the wisdom you sought. Your focused discipline has won the day!"
        else
          "THE FINAL BATTLE! " ++ pct ++ "% complete on " ++ goal.title ++
            "! The dragon\u0027s last breath grows weak. Your unwavering focus has brought you to the edge of total victory. Strike true!" }
    else if !isFocused && isOnTrack then
      { chapter := chapter, characterMood := CharacterMood.determined,
        text := if isBreak then
          "Nearly there on " ++ goal.title ++ " - " ++ pct ++
            "% complete! But wavering focus in the final hour risks everything. The treasure is within reach - one last push!"
        else
          "The end of " ++ goal.title ++ " approaches - " ++ pct ++
            "% done! The dragon\u0027s dying convulsions are most dangerous. Lock in your focus for the final push to victory!" }
    else if isFocused && !isOnTrack then
      { chapter := chapter, characterMood := CharacterMood.focused,
        text := if isBreak then
          pct ++ "% of " ++ goal.title ++
            " conquered through sheer will! Still behind but your focused surge gives hope. " ++
            days ++ " days - push harder than ever!"
        else
          "A heroic comeback on " ++ goal.title ++ "! " ++ pct ++
            "% complete with intense focus. The dragon staggers! " ++ rmin ++
            " minutes daily - you can still seize victory!" }
    else
      { chapter := chapter, characterMood := CharacterMood.struggling,
        text := if isBreak then
          "So close to " ++ goal.title ++ "\u0027s completion at " ++ pct ++
            "%, yet the dragon rallies as your focus fails. " ++ days ++
            " days left. Heroes are forged in moments like these!"
        else
          "The final battle for " ++ goal.title ++ " rages! " ++ pct ++
            "% done but time and focus slip away. The dragon senses victory. Only supreme concentration can save you now!" }

/-- `StoryGoalEngine.getFocusBasedStory(focusLevel, isBreak, sessionCount)`:
the fallback story when no goal is selected or found. -/
def getFocusBasedStory (focusLevel : ℚ) (isBreak : Bool)
    (sessionCount : ℚ) : AdaptiveStoryContent :=
  let isFocused := decide (4 ≤ focusLevel)
  let chapters : List (String × ℚ × ℚ) :=
    [("Chapter 1: The Dragon Awakens", 0, 2),
     ("Chapter 2: The Battle Intensifies", 2, 4),
     ("Chapter 3: The Final Confrontation", 4, 999)]
  let chapter :=
    match chapters.find? (fun c =>
        decide (c.2.1 ≤ sessionCount) && decide (sessionCount < c.2.2)) with
    | some c => c.1
    | none => "Chapter 1: The Dragon Awakens"
  let text :=
    if isFocused then
      if isBreak then
        "Victory in this skirmish! The Dragon of Distraction retreats, wounded by your focused assault. Rest well, warrior!"
      else
        "Excellent! Your sword of concentration cuts through the dragon\u0027s defenses. Each focused moment weakens its power over you!"
    else
      if isBreak then
        "The dragon gained ground this time. But true warriors learn from every battle. Strengthen your resolve!"
      else
        "The dragon\u0027s flames of distraction overwhelm you! Rally your focus and remember why you fight!"
  let mood :=
    if isBreak then
      if isFocused then CharacterMood.successful else CharacterMood.struggling
    else
      if isFocused then CharacterMood.focused else CharacterMood.struggling
  { text := text, characterMood := mood, chapter := chapter }

/-- `StoryGoalEngine.getStoryForSession(goalId, focusLevel, isBreak,
sessionCount)` over the stored goal list and the milestone `store`
(JS-falsy goal ids — `undefined` or the empty string — are `none`).  When
a locked milestone triggers, its story is returned (the `unlockMilestone`
storage write does not affect the returned content and is not modelled);
otherwise the adaptive goal story is generated. -/
def getStoryForSession (goals : List StudyGoal)
    (store : String → Option (List StoryMilestone)) (now : ℚ)
    (goalId : Option String) (focusLevel : ℚ) (isBreak : Bool)
    (sessionCount : ℚ) : AdaptiveStoryContent :=
  match goalId with
  | none => getFocusBasedStory focusLevel isBreak sessionCount
  | some gid =>
    let progress := GoalManager.calculateProgress goals now gid
    match GoalManager.findGoal goals gid with
    | none => getFocusBasedStory focusLevel isBreak sessionCount
    | some goal =>
      match checkForMilestone (getMilestones store goals gid) goal progress
          focusLevel with
      | some milestone =>
        if !milestone.storyContent.unlocked then
          { text := milestone.storyContent.text,
            characterMood := milestone.storyContent.characterMood,
            chapter := milestone.storyContent.title,
            milestone := some milestone }
        else getAdaptiveStory goal progress focusLevel isBreak
      | none => getAdaptiveStory goal progress focusLevel isBreak

end StoryGoalEngine

set_option maxHeartbeats 2000000 in
/-- C5: when `getStoryForSession` is called with the id of an existing goal
and no milestone unlocks during the call, the chapter of the returned
story is chosen purely by progress-percentage thresholds (Chapter 1 below
25, Chapter 2 below 50, Chapter 3 below 75, Chapter 4 from 75 up); the
focus level, break flag and session count never change which chapter is
picked, since the right-hand side does not mention them. -/
theorem getStoryForSession_chapter (goals : List StudyGoal)
    (store : String → Option (List StoryMilestone)) (now : ℚ)
    (goalId : String) (goal : StudyGoal)
    (hfind : GoalManager.findGoal goals goalId = some goal)
    (hms : StoryGoalEngine.checkForMilestone
      (StoryGoalEngine.getMilestones store goals goalId) goal
      (GoalManager.calculateProgress goals now goalId) 0 = none) :
    ∀ (focusLevel : ℚ) (isBreak : Bool) (sessionCount : ℚ),
      (StoryGoalEngine.getStoryForSession goals store now (some goalId)
        focusLevel isBreak sessionCount).chapter =
      (if (GoalManager.calculateProgress goals now goalId).progressPercentage
          < 25 then "Chapter 1: The Quest Begins"
        else if (GoalManager.calculateProgress goals now
            goalId).progressPercentage < 50 then
          "Chapter 2: The Dragon Weakens"
        else if (GoalManager.calculateProgress goals now
            goalId).progressPercentage < 75 then
          "Chapter 3: Victory in Sight"
        else "Chapter 4: The Final Strike") := by
  intro focusLevel isBreak sessionCount
  have hms' : StoryGoalEngine.checkForMilestone
      (StoryGoalEngine.getMilestones store goals goalId) goal
      (GoalManager.calculateProgress goals now goalId) focusLevel = none := hms
  simp only [StoryGoalEngine.getStoryForSession, hfind, hms']
  simp only [StoryGoalEngine.getAdaptiveStory]
  split_ifs <;> rfl

/-- A fresh active goal with no tasks, no hour target and zero progress. -/
def storyGoal : StudyGoal :=
  { id := "sg", title := "quest", subject := "s",
    priority := GoalPriority.medium, hoursCompleted := 0, createdAt := 0,
    isActive := true, tasks := [], sessionsCompleted := 0,
    flashcardsCreated := 0, flashcardsMastered := 0, currentStreak := 0 }

/-- Witness for C5: a store whose milestone blob for the goal parses to an
empty list, so no milestone can unlock. -/
theorem getStoryForSession_chapter_witness :
    GoalManager.findGoal [storyGoal] "sg" = some storyGoal
    ∧ StoryGoalEngine.checkForMilestone
        (StoryGoalEngine.getMilestones (fun _ => some []) [storyGoal] "sg")
        storyGoal (GoalManager.calculateProgress [storyGoal] 0 "sg") 0 = none
    ∧ (StoryGoalEngine.getStoryForSession [storyGoal] (fun _ => some []) 0
        (some "sg") 3 false 0).chapter =
      (if (GoalManager.calculateProgress [storyGoal] 0
          "sg").progressPercentage < 25 then "Chapter 1: The Quest Begins"
        else if (GoalManager.calculateProgress [storyGoal] 0
            "sg").progressPercentage < 50 then
          "Chapter 2: The Dragon Weakens"
        else if (GoalManager.calculateProgress [storyGoal] 0
            "sg").progressPercentage < 75 then
          "Chapter 3: Victory in Sight"
        else "Chapter 4: The Final Strike") :=
  ⟨rfl, rfl,
   getStoryForSession_chapter [storyGoal] (fun _ => some []) 0 "sg"
     storyGoal rfl rfl 3 false 0⟩
